import Mathlib

/-!
Shallow embedding of the AgroSmart farm-control backend
(backend/agrosmart_api.py): the automatic-mode analysis engine
(class AutomaticModeAI), the immediate-irrigation endpoint
(irrigation_immediate), and the sensor-state merge (post_sensors).
Timestamps are modelled as natural numbers (seconds since some epoch);
JSON values as the dynamic type JVal. A Python runtime error inside
_perform_intelligent_analysis (for example an order comparison between a
string and a number) is modelled by Except.error; the outer try/except of
the source is the match in performIntelligentAnalysis.
-/

namespace AgroSmart

/-- JSON-style dynamic values held in the sensor dictionary and in inbound
payloads: numbers (modelled as rationals), strings, booleans and None. -/
inductive JVal where
  | num (q : ℚ)
  | str (s : String)
  | bool (b : Bool)
  | null
deriving DecidableEq

/-- A string-keyed dictionary (Python dict with string keys), as an
association list with the dict's insertion order. -/
abbrev SMap := List (String × JVal)

/-- Dictionary key lookup: first entry whose key matches. -/
def lookupKey : SMap → String → Option JVal
  | [], _ => none
  | (k', v) :: rest, k => if k' = k then some v else lookupKey rest k

/-- Python dict.get with a default value. -/
def getKeyD (m : SMap) (k : String) (d : JVal) : JVal :=
  (lookupKey m k).getD d

/-- Python `key in dict`. -/
def hasKey : SMap → String → Bool
  | [], _ => false
  | (k', _) :: rest, k => k' = k || hasKey rest k

/-- Python dict assignment `m[k] = v`: overwrite in place if the key exists,
append otherwise. -/
def setKey : SMap → String → JVal → SMap
  | [], k, v => [(k, v)]
  | (k', v') :: rest, k, v =>
      if k' = k then (k, v) :: rest else (k', v') :: setKey rest k v

/-- The list of keys of a dictionary, in order. -/
def keysOf : SMap → List String
  | [] => []
  | (k, _) :: rest => k :: keysOf rest

/-- Python truthiness of a JSON value (used for `if rain_detected:` and
`if data:`). -/
def truthy : JVal → Bool
  | JVal.num q => decide (q ≠ 0)
  | JVal.str s => decide (s ≠ "")
  | JVal.bool b => b
  | JVal.null => false

/-- Python `v < c` for a dynamic v against a numeric literal c: numbers and
booleans (which are numbers in Python) compare, strings and None raise a
TypeError, modelled as Except.error. -/
def jlt (v : JVal) (c : ℚ) : Except Unit Bool :=
  match v with
  | JVal.num q => Except.ok (decide (q < c))
  | JVal.bool b => Except.ok (decide ((if b then (1 : ℚ) else 0) < c))
  | _ => Except.error ()

/-- Python `v > c` for a dynamic v against a numeric literal c. -/
def jgt (v : JVal) (c : ℚ) : Except Unit Bool :=
  match v with
  | JVal.num q => Except.ok (decide (c < q))
  | JVal.bool b => Except.ok (decide (c < (if b then (1 : ℚ) else 0)))
  | _ => Except.error ()

/-- Python str() rendering of a value, used in interpolated messages. The
exact number formatting is abstracted. -/
def renderJVal : JVal → String
  | JVal.num q => toString q
  | JVal.str s => s
  | JVal.bool b => if b then "True" else "False"
  | JVal.null => "None"

/-- The contribution of one if/elif/else block of
_perform_intelligent_analysis: list items appended and the score change. -/
structure Delta where
  alerts : List String := []
  priority_actions : List String := []
  recommendations : List String := []
  system_actions : List String := []
  market_insights : List String := []
  dscore : ℤ := 0
deriving DecidableEq

/-- The analysis dict built by _perform_intelligent_analysis. -/
structure Analysis where
  timestamp : ℕ
  priority_actions : List String
  recommendations : List String
  alerts : List String
  system_actions : List String
  market_insights : List String
  optimization_score : ℤ
  overall_status : String
deriving DecidableEq

/-- Soil moisture block (lines 266-276 of the source): below 25 is critical
(alert, prepare irrigation, score -20); below 35 is low (monitor, -10);
otherwise optimal. -/
def soilSection (soil : JVal) : Except Unit Delta :=
  match jlt soil 25 with
  | Except.error e => Except.error e
  | Except.ok b =>
    if b then
      Except.ok
        { alerts := ["🚨 Critical: Soil moisture low - Crops need water"]
          system_actions := ["🌊 AUTO: Preparing irrigation system for immediate watering"]
          recommendations := ["💧 Recommend: Start drip irrigation for 15-20 minutes"]
          dscore := -20 }
    else
      match jlt soil 35 with
      | Except.error e => Except.error e
      | Except.ok b2 =>
        if b2 then
          Except.ok
            { priority_actions := ["⚠️ Monitor: Soil moisture below optimal - Consider irrigation"]
              recommendations := ["🌱 Plan irrigation within next 2-3 hours for optimal growth"]
              dscore := -10 }
        else
          Except.ok
            { priority_actions := ["✅ Good: Soil moisture optimal for current growth stage"] }

/-- Temperature block (lines 279-289): above 32 (alert, -15); below 15
(alert, -10); otherwise an optimal-temperature note. -/
def tempSection (temp : JVal) : Except Unit Delta :=
  match jgt temp 32 with
  | Except.error e => Except.error e
  | Except.ok b =>
    if b then
      Except.ok
        { alerts := ["🌡️ Alert: High temperature detected - Risk of heat stress"]
          system_actions := ["💨 AUTO: Increasing ventilation and shade protection"]
          recommendations := ["🏠 Consider temporary shade cloth or misting system"]
          dscore := -15 }
    else
      match jlt temp 15 with
      | Except.error e => Except.error e
      | Except.ok b2 =>
        if b2 then
          Except.ok
            { alerts := ["❄️ Alert: Low temperature - Growth may slow down"]
              system_actions := ["🔥 AUTO: Monitoring for frost protection needs"]
              dscore := -10 }
        else
          Except.ok
            { priority_actions :=
                ["🌡️ Optimal: Temperature " ++ renderJVal temp ++ "°C perfect for crop growth"] }

/-- Rain block (lines 292-294): rain detected pauses irrigation; no score
change. -/
def rainSection (rain : JVal) : Delta :=
  if truthy rain then
    { system_actions := ["🌧️ AUTO: Rain detected - Pausing irrigation to prevent overwatering"]
      recommendations := ["☔ Natural irrigation active - Monitor drainage systems"] }
  else {}

/-- Forecast block (lines 297-306): reads rain_chance of forecast[0] when the
forecast is non-empty; no score change. -/
def forecastSection (forecast : List SMap) : Except Unit Delta :=
  match forecast with
  | [] => Except.ok {}
  | today :: _ =>
    match jgt (getKeyD today "rain_chance" (JVal.num 0)) 60 with
    | Except.error e => Except.error e
    | Except.ok b =>
      if b then
        Except.ok
          { system_actions := ["🌦️ AUTO: High rain probability - Postponing irrigation schedule"]
            recommendations := ["🌧️ Prepare drainage channels for expected rainfall"] }
      else
        match jlt (getKeyD today "rain_chance" (JVal.num 0)) 10 with
        | Except.error e => Except.error e
        | Except.ok b2 =>
          if b2 then
            Except.ok
              { priority_actions := ["☀️ Clear weather ahead - Optimal for field activities"]
                recommendations := ["🚜 Good time for harvesting, weeding, or application work"] }
          else Except.ok {}

/-- Water level block (lines 309-315): below 150 is critical (alert, -25);
below 200 asks to plan a refill (-5). -/
def waterSection (water : JVal) : Except Unit Delta :=
  match jlt water 150 with
  | Except.error e => Except.error e
  | Except.ok b =>
    if b then
      Except.ok
        { alerts := ["💧 Critical: Water tank level very low - Refill needed"]
          system_actions := ["🚰 AUTO: Sending low water level notification"]
          dscore := -25 }
    else
      match jlt water 200 with
      | Except.error e => Except.error e
      | Except.ok b2 =>
        if b2 then
          Except.ok
            { priority_actions := ["💧 Monitor: Water level getting low - Plan refill soon"]
              dscore := -5 }
        else Except.ok {}

/-- Seasonal market block (lines 318-324): month 4 or 5 is planting season,
month 12 or 1 is harvest season; no score change. -/
def marketSection (month : ℕ) : Delta :=
  if month = 4 ∨ month = 5 then
    { market_insights := ["💰 Market Insight: Ginger planting season - Optimal ROI opportunity"]
      recommendations := ["🌱 Consider ginger cultivation for ₹6.5-8.5 lakh profit/hectare"] }
  else if month = 12 ∨ month = 1 then
    { market_insights := ["📈 Market Insight: Harvest season - Premium prices expected"]
      recommendations := ["🚜 Plan harvesting for maximum market value"] }
  else {}

/-- Humidity block (lines 327-331): above 80 increases circulation, below 50
adjusts misting; no score change. -/
def humiditySection (humidity : JVal) : Except Unit Delta :=
  match jgt humidity 80 with
  | Except.error e => Except.error e
  | Except.ok b =>
    if b then
      Except.ok
        { system_actions := ["💨 AUTO: High humidity detected - Increasing air circulation"]
          recommendations := ["🌪️ Consider fungal disease prevention measures"] }
    else
      match jlt humidity 50 with
      | Except.error e => Except.error e
      | Except.ok b2 =>
        if b2 then
          Except.ok
            { system_actions := ["💧 AUTO: Low humidity - Adjusting misting schedule"] }
        else Except.ok {}

/-- The running score: it starts at 100 and each block adds its (nonpositive)
change; only the soil, temperature and water blocks have a nonzero change. -/
def scoreOf (s t r f w m h : Delta) : ℤ :=
  100 + s.dscore + t.dscore + r.dscore + f.dscore + w.dscore + m.dscore + h.dscore

/-- overall_status thresholds of lines 337-344, computed from the unclamped
score. -/
def overallStatusOf (score : ℤ) : String :=
  if score ≥ 90 then "🌟 Excellent: Farm conditions optimal"
  else if score ≥ 75 then "✅ Good: Minor adjustments recommended"
  else if score ≥ 60 then "⚠️ Fair: Several improvements needed"
  else "🚨 Action Required: Multiple critical issues detected"

/-- Assembling the analysis dict: list fields are appended in the source's
block order, optimization_score is max(0, score) (line 334). -/
def assembleAnalysis (s t r f w m h : Delta) (now : ℕ) : Analysis :=
  { timestamp := now
    priority_actions := s.priority_actions ++ t.priority_actions ++ r.priority_actions ++
      f.priority_actions ++ w.priority_actions ++ m.priority_actions ++ h.priority_actions
    recommendations := s.recommendations ++ t.recommendations ++ r.recommendations ++
      f.recommendations ++ w.recommendations ++ m.recommendations ++ h.recommendations
    alerts := s.alerts ++ t.alerts ++ r.alerts ++ f.alerts ++ w.alerts ++ m.alerts ++ h.alerts
    system_actions := s.system_actions ++ t.system_actions ++ r.system_actions ++
      f.system_actions ++ w.system_actions ++ m.system_actions ++ h.system_actions
    market_insights := s.market_insights ++ t.market_insights ++ r.market_insights ++
      f.market_insights ++ w.market_insights ++ m.market_insights ++ h.market_insights
    optimization_score := max 0 (scoreOf s t r f w m h)
    overall_status := overallStatusOf (scoreOf s t r f w m h) }

/-- The body of _perform_intelligent_analysis (lines 243-346): extract the
sensor fields with their defaults, run the blocks in source order, and
assemble the analysis; any raised TypeError propagates as Except.error. -/
def performAnalysisE (sd : SMap) (forecast : List SMap) (month now : ℕ) :
    Except Unit Analysis :=
  let temp := getKeyD sd "temperature" (JVal.num 25)
  let humidity := getKeyD sd "humidity" (JVal.num 65)
  let soil := getKeyD sd "soil_moisture" (JVal.num 40)
  let water := getKeyD sd "water_level" (JVal.num 200)
  let rain := getKeyD sd "rain_detected" (JVal.bool false)
  match soilSection soil with
  | Except.error e => Except.error e
  | Except.ok s =>
    match tempSection temp with
    | Except.error e => Except.error e
    | Except.ok t =>
      match forecastSection forecast with
      | Except.error e => Except.error e
      | Except.ok f =>
        match waterSection water with
        | Except.error e => Except.error e
        | Except.ok w =>
          match humiditySection humidity with
          | Except.error e => Except.error e
          | Except.ok h =>
            Except.ok (assembleAnalysis s t (rainSection rain) f w (marketSection month) h now)

/-- The fixed fail-safe analysis returned by the except branch
(lines 348-356). The source dict omits the alert and priority lists; they
are modelled as empty. -/
def fallbackAnalysis (now : ℕ) : Analysis :=
  { timestamp := now
    priority_actions := []
    recommendations := ["📊 Monitoring all farm parameters continuously"]
    alerts := []
    system_actions := ["🔧 AUTO: Performing system diagnostics"]
    market_insights := []
    optimization_score := 85
    overall_status := "🤖 AI analysis system operational" }

/-- _perform_intelligent_analysis with its try/except: a successful body
returns its analysis, any internal failure returns the fixed fallback. -/
def performIntelligentAnalysis (sd : SMap) (forecast : List SMap) (month now : ℕ) :
    Analysis :=
  match performAnalysisE sd forecast month now with
  | Except.ok a => a
  | Except.error _ => fallbackAnalysis now

/-- The Delta of the critical soil branch (lines 267-270). -/
def soilCritDelta : Delta :=
  { alerts := ["🚨 Critical: Soil moisture low - Crops need water"]
    system_actions := ["🌊 AUTO: Preparing irrigation system for immediate watering"]
    recommendations := ["💧 Recommend: Start drip irrigation for 15-20 minutes"]
    dscore := -20 }

/-- The Delta of the optimal soil branch (line 276). -/
def soilOptimalDelta : Delta :=
  { priority_actions := ["✅ Good: Soil moisture optimal for current growth stage"] }

/-- The Delta of the critical water branch (lines 310-312). -/
def waterCritDelta : Delta :=
  { alerts := ["💧 Critical: Water tank level very low - Refill needed"]
    system_actions := ["🚰 AUTO: Sending low water level notification"]
    dscore := -25 }

/-- A sensor reading with numeric fields, as the SensorReading data model
types them (temperature, humidity, soilMoisture, waterLevel floats and
rainDetected a boolean). -/
def mkReading (T H S W : ℚ) (R : Bool) : SMap :=
  [("temperature", JVal.num T), ("humidity", JVal.num H),
   ("soil_moisture", JVal.num S), ("water_level", JVal.num W),
   ("rain_detected", JVal.bool R)]

/-- self.analysis_interval = 30 seconds (line 206). -/
def analysisIntervalSec : ℕ := 30

/-- The mutable fields of AutomaticModeAI: current_action and
last_analysis_time (both None after __init__). -/
structure AIState where
  current_action : Option Analysis
  last_analysis_time : Option ℕ
deriving DecidableEq

/-- The AutomaticModeAI state right after __init__ (lines 203-206). -/
def initAIState : AIState := { current_action := none, last_analysis_time := none }

/-- The dict returned by analyze_and_display_actions. The source returns
different key sets on each path; absent keys and keys set to None are both
modelled as none. -/
structure AIResponse where
  ai_active : Bool
  message : String
  analysis : Option Analysis
  current_action : Option Analysis
  next_check : Option ℕ
deriving DecidableEq

/-- The fresh-computation tail of analyze_and_display_actions
(lines 229-239): run the analysis, cache it, record the time. -/
def freshAnalyze (sd : SMap) (fc : List SMap) (month now : ℕ) : AIResponse × AIState :=
  let analysis := performIntelligentAnalysis sd fc month now
  ({ ai_active := true
     message := "🤖 AI actively monitoring and optimizing your farm"
     analysis := some analysis
     current_action := none
     next_check := some analysisIntervalSec },
   { current_action := some analysis, last_analysis_time := some now })

/-- analyze_and_display_actions (lines 209-239). A non-automatic mode short
circuits; a previous computation within the interval returns the cached
current_action without touching the state. Python's timedelta.seconds is
(now - t) % 86400. -/
def analyze_and_display_actions (st : AIState) (sd : SMap) (fc : List SMap)
    (current_mode : String) (month now : ℕ) : AIResponse × AIState :=
  if current_mode ≠ "automatic" then
    ({ ai_active := false
       message := "AI monitoring disabled - Manual mode active"
       analysis := none
       current_action := none
       next_check := none }, st)
  else
    match st.last_analysis_time with
    | some t =>
      if (now - t) % 86400 < analysisIntervalSec then
        ({ ai_active := true
           message := "AI analyzing... Next check in " ++
             toString (analysisIntervalSec - (now - t) % 86400) ++ " seconds"
           analysis := none
           current_action := st.current_action
           next_check := none }, st)
      else freshAnalyze sd fc month now
    | none => freshAnalyze sd fc month now

/-- The irrigation_status sub-dict of the global system_state
(lines 647-652). -/
structure IrrigationStatus where
  running : Bool
  start_time : Option ℕ
  duration : JVal
  scheduled_jobs : List String
deriving DecidableEq

/-- The initial irrigation_status: not running, nothing scheduled. -/
def initIrrigationStatus : IrrigationStatus :=
  { running := false, start_time := none, duration := JVal.num 0, scheduled_jobs := [] }

/-- The JSON body returned by the immediate-irrigation endpoint (minus the
echoed status, which is the second component of irrigation_immediate). -/
structure IrrResult where
  success : Bool
  message : String
  action : String
  ai_insight : String
deriving DecidableEq

/-- Python str.lower restricted to characters, as used on the action
string. -/
def lowerString (s : String) : String :=
  String.mk (s.data.map Char.toLower)

/-- The messages dict of lines 968-973; a missing action falls back to the
generic processed message at line 1008. -/
def irrigationMessage (action : String) (duration : JVal) : String :=
  if action = "start" then
    "🌱 Irrigation started successfully for " ++ renderJVal duration ++ " minutes!"
  else if action = "pause" then "⏸️ Irrigation paused temporarily."
  else if action = "stop" then "⏹️ Irrigation stopped successfully."
  else if action = "resume" then "▶️ Irrigation resumed successfully."
  else "Irrigation " ++ action ++ " processed"

/-- The irrigation_immediate endpoint (lines 960-1013): lowercase the
requested action, update the status dict for the four recognized actions,
leave it untouched otherwise, and always answer success with a message and
an optional automatic-mode insight. rain_chance is the numeric value the
weather system supplies. -/
def irrigation_immediate (st : IrrigationStatus) (rawAction : String) (duration : JVal)
    (current_mode : String) (rain_chance : ℚ) (now : ℕ) : IrrResult × IrrigationStatus :=
  let action := lowerString rawAction
  let st' :=
    if action = "start" then
      { st with running := true, start_time := some now, duration := duration }
    else if action = "pause" ∨ action = "stop" then
      { st with running := false, start_time := none, duration := JVal.num 0 }
    else if action = "resume" then
      { st with running := true, start_time := some now }
    else st
  let insight :=
    if current_mode = "automatic" ∧ action = "start" then
      if rain_chance > 50 then
        "🤖 AI Note: High rain probability detected - Consider shorter duration"
      else "🤖 AI Note: Good conditions for irrigation - Optimal timing"
    else ""
  ({ success := true
     message := irrigationMessage action duration
     action := action
     ai_insight := insight }, st')

/-- The keys of the sensor_data dict of the global system_state
(lines 635-645): this key set is the recognized-field whitelist of
post_sensors. -/
def schemaKeys : List String :=
  ["temperature", "humidity", "soil_moisture", "water_level", "rain_detected",
   "pump_running", "esp32_ip", "last_updated", "connection_status"]

/-- The initial sensor_data dict (lines 635-645), with its timestamp
modelled as 0. -/
def sensorData0 : SMap :=
  [("temperature", JVal.num 25), ("humidity", JVal.num 68),
   ("soil_moisture", JVal.num 42), ("water_level", JVal.num 245),
   ("rain_detected", JVal.bool false), ("pump_running", JVal.bool false),
   ("esp32_ip", JVal.null), ("last_updated", JVal.num 0),
   ("connection_status", JVal.str "connected")]

/-- The merge loop of post_sensors (lines 738-740): each payload entry is
stored only when its key is already present in the sensor dict. -/
def mergeRecognized : SMap → SMap → SMap
  | cur, [] => cur
  | cur, (k, v) :: rest =>
      mergeRecognized (if hasKey cur k then setKey cur k v else cur) rest

/-- The post_sensors endpoint body (lines 737-743): a falsy payload changes
nothing; otherwise merge the recognized keys, then stamp last_updated with
the current time and set connection_status to connected. -/
def post_sensors (cur : SMap) (payload : SMap) (now : ℕ) : SMap :=
  if payload.isEmpty then cur
  else
    setKey (setKey (mergeRecognized cur payload) "last_updated" (JVal.num now))
      "connection_status" (JVal.str "connected")

theorem soilSection_ok_dscore (v : JVal) (d : Delta) (h : soilSection v = Except.ok d) :
    -20 ≤ d.dscore ∧ d.dscore ≤ 0 := by
  unfold soilSection at h
  repeat' split at h
  all_goals first
    | exact Except.noConfusion h
    | (injection h with h; subst h; norm_num)

theorem tempSection_ok_dscore (v : JVal) (d : Delta) (h : tempSection v = Except.ok d) :
    -15 ≤ d.dscore ∧ d.dscore ≤ 0 := by
  unfold tempSection at h
  repeat' split at h
  all_goals first
    | exact Except.noConfusion h
    | (injection h with h; subst h; norm_num)

theorem waterSection_ok_dscore (v : JVal) (d : Delta) (h : waterSection v = Except.ok d) :
    -25 ≤ d.dscore ∧ d.dscore ≤ 0 := by
  unfold waterSection at h
  repeat' split at h
  all_goals first
    | exact Except.noConfusion h
    | (injection h with h; subst h; norm_num)

theorem forecastSection_ok_dscore (fc : List SMap) (d : Delta)
    (h : forecastSection fc = Except.ok d) : d.dscore = 0 := by
  unfold forecastSection at h
  repeat' split at h
  all_goals first
    | exact Except.noConfusion h
    | (injection h with h; subst h; norm_num)

theorem humiditySection_ok_dscore (v : JVal) (d : Delta)
    (h : humiditySection v = Except.ok d) : d.dscore = 0 := by
  unfold humiditySection at h
  repeat' split at h
  all_goals first
    | exact Except.noConfusion h
    | (injection h with h; subst h; norm_num)

theorem rainSection_dscore (v : JVal) : (rainSection v).dscore = 0 := by
  unfold rainSection; split <;> decide

theorem marketSection_dscore (m : ℕ) : (marketSection m).dscore = 0 := by
  unfold marketSection
  repeat' split
  all_goals decide

theorem performAnalysisE_ok_elim (sd : SMap) (fc : List SMap) (month now : ℕ)
    (a : Analysis) (h : performAnalysisE sd fc month now = Except.ok a) :
    ∃ s t f w hu,
      soilSection (getKeyD sd "soil_moisture" (JVal.num 40)) = Except.ok s ∧
      tempSection (getKeyD sd "temperature" (JVal.num 25)) = Except.ok t ∧
      forecastSection fc = Except.ok f ∧
      waterSection (getKeyD sd "water_level" (JVal.num 200)) = Except.ok w ∧
      humiditySection (getKeyD sd "humidity" (JVal.num 65)) = Except.ok hu ∧
      a = assembleAnalysis s t (rainSection (getKeyD sd "rain_detected" (JVal.bool false)))
            f w (marketSection month) hu now := by
  simp only [performAnalysisE] at h
  repeat' split at h
  all_goals try exact Except.noConfusion h
  rename_i x1 s hs x2 t ht x3 f hf x4 w hw x5 hu hh
  injection h with h
  exact ⟨s, t, f, w, hu, hs, ht, hf, hw, hh, h.symm⟩

theorem soilSection_crit (q : ℚ) (h : q < 25) :
    soilSection (JVal.num q) = Except.ok soilCritDelta := by
  simp [soilSection, jlt, h, soilCritDelta]

theorem soilSection_at40 : soilSection (JVal.num 40) = Except.ok soilOptimalDelta := rfl

theorem waterSection_crit (q : ℚ) (h : q < 150) :
    waterSection (JVal.num q) = Except.ok waterCritDelta := by
  simp [waterSection, jlt, h, waterCritDelta]

theorem tempSection_num_ok (q : ℚ) :
    ∃ d, tempSection (JVal.num q) = Except.ok d := by
  unfold tempSection jgt jlt
  by_cases h1 : (32:ℚ) < q
  · simp [h1]
  · by_cases h2 : q < 15 <;> simp [h1, h2]

theorem humiditySection_num_ok (q : ℚ) :
    ∃ d, humiditySection (JVal.num q) = Except.ok d := by
  unfold humiditySection jgt jlt
  by_cases h1 : (80:ℚ) < q
  · simp [h1]
  · by_cases h2 : q < 50 <;> simp [h1, h2]

theorem mkReading_temp (T H S W : ℚ) (R : Bool) :
    getKeyD (mkReading T H S W R) "temperature" (JVal.num 25) = JVal.num T := rfl

theorem mkReading_hum (T H S W : ℚ) (R : Bool) :
    getKeyD (mkReading T H S W R) "humidity" (JVal.num 65) = JVal.num H := rfl

theorem mkReading_soil (T H S W : ℚ) (R : Bool) :
    getKeyD (mkReading T H S W R) "soil_moisture" (JVal.num 40) = JVal.num S := rfl

theorem mkReading_water (T H S W : ℚ) (R : Bool) :
    getKeyD (mkReading T H S W R) "water_level" (JVal.num 200) = JVal.num W := rfl

theorem mkReading_rain (T H S W : ℚ) (R : Bool) :
    getKeyD (mkReading T H S W R) "rain_detected" (JVal.bool false) = JVal.bool R := rfl

theorem performAnalysisE_mkReading (T H S W : ℚ) (R : Bool) (fc : List SMap)
    (month now : ℕ) (ds dt dw dh f : Delta)
    (hs : soilSection (JVal.num S) = Except.ok ds)
    (ht : tempSection (JVal.num T) = Except.ok dt)
    (hf : forecastSection fc = Except.ok f)
    (hw : waterSection (JVal.num W) = Except.ok dw)
    (hh : humiditySection (JVal.num H) = Except.ok dh) :
    performAnalysisE (mkReading T H S W R) fc month now =
      Except.ok (assembleAnalysis ds dt (rainSection (JVal.bool R)) f dw
        (marketSection month) dh now) := by
  simp only [performAnalysisE, mkReading_temp, mkReading_hum, mkReading_soil,
    mkReading_water, mkReading_rain, hs, ht, hf, hw, hh]

theorem overallStatusOf_low (sc : ℤ) (h : sc < 60) :
    overallStatusOf sc = "🚨 Action Required: Multiple critical issues detected" := by
  unfold overallStatusOf
  rw [if_neg (by omega), if_neg (by omega), if_neg (by omega)]

/-- Claim C1: the optimization score of a fresh analysis is clamped into
[0,100] for every sensor dictionary, forecast, month and time. -/
theorem analysis_score_bounded (sd : SMap) (fc : List SMap) (month now : ℕ) :
    0 ≤ (performIntelligentAnalysis sd fc month now).optimization_score ∧
    (performIntelligentAnalysis sd fc month now).optimization_score ≤ 100 := by
  cases hE : performAnalysisE sd fc month now with
  | error e => simp [performIntelligentAnalysis, hE, fallbackAnalysis]
  | ok a =>
    obtain ⟨s, t, f, w, hu, hs, ht, hf, hw, hh, rfl⟩ :=
      performAnalysisE_ok_elim sd fc month now a hE
    have Hs := soilSection_ok_dscore _ _ hs
    have Ht := tempSection_ok_dscore _ _ ht
    have Hf := forecastSection_ok_dscore _ _ hf
    have Hw := waterSection_ok_dscore _ _ hw
    have Hh := humiditySection_ok_dscore _ _ hh
    have Hr := rainSection_dscore (getKeyD sd "rain_detected" (JVal.bool false))
    have Hm := marketSection_dscore month
    simp only [performIntelligentAnalysis, hE, assembleAnalysis, scoreOf]
    constructor
    · exact le_max_left 0 _
    · exact max_le (by norm_num) (by omega)

theorem waterSection_num_ok (q : ℚ) :
    ∃ d, waterSection (JVal.num q) = Except.ok d := by
  unfold waterSection jlt
  by_cases h1 : q < 150
  · simp [h1]
  · by_cases h2 : q < 200 <;> simp [h1, h2]

/-- Claim C2: for a typed reading whose soil moisture is below the critical
threshold 25, a fresh analysis contains the soil-critical alert and the
prepare-irrigation system action, and scores exactly 20 points below the
same reading with optimal soil moisture, whatever the other fields are. -/
theorem soil_critical_effect (T H S W : ℚ) (R : Bool) (fc : List SMap)
    (month now : ℕ) (f : Delta) (hS : S < 25) (hf : forecastSection fc = Except.ok f) :
    "🚨 Critical: Soil moisture low - Crops need water" ∈
      (performIntelligentAnalysis (mkReading T H S W R) fc month now).alerts ∧
    "🌊 AUTO: Preparing irrigation system for immediate watering" ∈
      (performIntelligentAnalysis (mkReading T H S W R) fc month now).system_actions ∧
    (performIntelligentAnalysis (mkReading T H S W R) fc month now).optimization_score =
      (performIntelligentAnalysis (mkReading T H 40 W R) fc month now).optimization_score - 20 := by
  obtain ⟨dt, ht⟩ := tempSection_num_ok T
  obtain ⟨dh, hh⟩ := humiditySection_num_ok H
  obtain ⟨dw, hw⟩ := waterSection_num_ok W
  have e1 := performAnalysisE_mkReading T H S W R fc month now soilCritDelta dt dw dh f
    (soilSection_crit S hS) ht hf hw hh
  have e2 := performAnalysisE_mkReading T H 40 W R fc month now soilOptimalDelta dt dw dh f
    soilSection_at40 ht hf hw hh
  have Ht := tempSection_ok_dscore _ _ ht
  have Hw := waterSection_ok_dscore _ _ hw
  have Hh := humiditySection_ok_dscore _ _ hh
  have Hf := forecastSection_ok_dscore _ _ hf
  have Hr := rainSection_dscore (JVal.bool R)
  have Hm := marketSection_dscore month
  have Hc : soilCritDelta.dscore = -20 := rfl
  have Ho : soilOptimalDelta.dscore = 0 := rfl
  refine ⟨?_, ?_, ?_⟩
  · simp [performIntelligentAnalysis, e1, assembleAnalysis, soilCritDelta]
  · simp [performIntelligentAnalysis, e1, assembleAnalysis, soilCritDelta]
  · simp only [performIntelligentAnalysis, e1, e2, assembleAnalysis, scoreOf]
    rw [max_eq_right (by omega), max_eq_right (by omega)]
    omega

theorem soil_critical_effect_witness :
    (10:ℚ) < 25 ∧ forecastSection [] = Except.ok {} ∧
    ("🚨 Critical: Soil moisture low - Crops need water" ∈
      (performIntelligentAnalysis (mkReading 25 65 10 200 false) [] 6 0).alerts ∧
     "🌊 AUTO: Preparing irrigation system for immediate watering" ∈
      (performIntelligentAnalysis (mkReading 25 65 10 200 false) [] 6 0).system_actions ∧
     (performIntelligentAnalysis (mkReading 25 65 10 200 false) [] 6 0).optimization_score =
       (performIntelligentAnalysis (mkReading 25 65 40 200 false) [] 6 0).optimization_score - 20) :=
  ⟨by norm_num, rfl, soil_critical_effect 25 65 10 200 false [] 6 0 {} (by norm_num) rfl⟩

/-- Claim C9: with soil moisture 18 and water level 90 a fresh analysis has
both critical alerts, scores at most 55 and reports Action Required. -/
theorem scenario_soil18_water90 (T H : ℚ) (R : Bool) (fc : List SMap)
    (month now : ℕ) (f : Delta) (hf : forecastSection fc = Except.ok f) :
    "🚨 Critical: Soil moisture low - Crops need water" ∈
      (performIntelligentAnalysis (mkReading T H 18 90 R) fc month now).alerts ∧
    "💧 Critical: Water tank level very low - Refill needed" ∈
      (performIntelligentAnalysis (mkReading T H 18 90 R) fc month now).alerts ∧
    (performIntelligentAnalysis (mkReading T H 18 90 R) fc month now).optimization_score ≤ 55 ∧
    (performIntelligentAnalysis (mkReading T H 18 90 R) fc month now).overall_status =
      "🚨 Action Required: Multiple critical issues detected" := by
  obtain ⟨dt, ht⟩ := tempSection_num_ok T
  obtain ⟨dh, hh⟩ := humiditySection_num_ok H
  have e1 := performAnalysisE_mkReading T H 18 90 R fc month now soilCritDelta dt
    waterCritDelta dh f (soilSection_crit 18 (by norm_num)) ht hf
    (waterSection_crit 90 (by norm_num)) hh
  have Ht := tempSection_ok_dscore _ _ ht
  have Hh := humiditySection_ok_dscore _ _ hh
  have Hf := forecastSection_ok_dscore _ _ hf
  have Hr := rainSection_dscore (JVal.bool R)
  have Hm := marketSection_dscore month
  have Hc : soilCritDelta.dscore = -20 := rfl
  have Hwc : waterCritDelta.dscore = -25 := rfl
  refine ⟨?_, ?_, ?_, ?_⟩
  · simp [performIntelligentAnalysis, e1, assembleAnalysis, soilCritDelta, waterCritDelta]
  · simp [performIntelligentAnalysis, e1, assembleAnalysis, soilCritDelta, waterCritDelta]
  · simp only [performIntelligentAnalysis, e1, assembleAnalysis, scoreOf]
    rw [max_eq_right (by omega)]
    omega
  · simp only [performIntelligentAnalysis, e1, assembleAnalysis, scoreOf]
    exact overallStatusOf_low _ (by omega)

theorem scenario_soil18_water90_witness :
    forecastSection [] = Except.ok {} ∧
    ("🚨 Critical: Soil moisture low - Crops need water" ∈
      (performIntelligentAnalysis (mkReading 25 65 18 90 false) [] 6 0).alerts ∧
     "💧 Critical: Water tank level very low - Refill needed" ∈
      (performIntelligentAnalysis (mkReading 25 65 18 90 false) [] 6 0).alerts ∧
     (performIntelligentAnalysis (mkReading 25 65 18 90 false) [] 6 0).optimization_score ≤ 55 ∧
     (performIntelligentAnalysis (mkReading 25 65 18 90 false) [] 6 0).overall_status =
       "🚨 Action Required: Multiple critical issues detected") :=
  ⟨rfl, scenario_soil18_water90 25 65 false [] 6 0 {} rfl⟩

/-- Claim C3: when the analysis body raises, the engine returns the fixed
fail-safe assessment: score 85, operational status and the generic
diagnostic system action, with no error surfaced. -/
theorem analysis_failure_fallback (sd : SMap) (fc : List SMap) (month now : ℕ)
    (h : performAnalysisE sd fc month now = Except.error ()) :
    performIntelligentAnalysis sd fc month now = fallbackAnalysis now ∧
    (performIntelligentAnalysis sd fc month now).optimization_score = 85 ∧
    (performIntelligentAnalysis sd fc month now).overall_status =
      "🤖 AI analysis system operational" ∧
    (performIntelligentAnalysis sd fc month now).system_actions =
      ["🔧 AUTO: Performing system diagnostics"] := by
  simp [performIntelligentAnalysis, h, fallbackAnalysis]

theorem analysis_failure_fallback_witness :
    performAnalysisE [("temperature", JVal.str "hot")] [] 6 0 = Except.error () ∧
    performIntelligentAnalysis [("temperature", JVal.str "hot")] [] 6 0 =
      fallbackAnalysis 0 :=
  ⟨rfl, (analysis_failure_fallback [("temperature", JVal.str "hot")] [] 6 0 rfl).1⟩

/-- Claim C5: any mode other than automatic returns the inactive marker
response, with no analysis attached and the engine state untouched. -/
theorem manual_mode_inactive (st : AIState) (sd : SMap) (fc : List SMap)
    (mode : String) (month now : ℕ) (h : mode ≠ "automatic") :
    analyze_and_display_actions st sd fc mode month now =
      ({ ai_active := false
         message := "AI monitoring disabled - Manual mode active"
         analysis := none
         current_action := none
         next_check := none }, st) := by
  simp [analyze_and_display_actions, h]

theorem manual_mode_inactive_witness :
    ("manual" : String) ≠ "automatic" ∧
    analyze_and_display_actions initAIState [] [] "manual" 6 0 =
      ({ ai_active := false
         message := "AI monitoring disabled - Manual mode active"
         analysis := none
         current_action := none
         next_check := none }, initAIState) :=
  ⟨by decide, manual_mode_inactive initAIState [] [] "manual" 6 0 (by decide)⟩

/-- Claim C4: a second call within the 30 second throttle interval returns
the cached analysis of the first call unchanged (as current_action, with no
fresh analysis), reports the remaining wait, and leaves the engine state
exactly as the first call left it. -/
theorem throttled_call_returns_cache (sd : SMap) (fc : List SMap) (month t0 t1 : ℕ)
    (st0 : AIState) (h0 : st0.last_analysis_time = none)
    (hle : t0 ≤ t1) (hlt : t1 - t0 < 30) :
    (analyze_and_display_actions
        (analyze_and_display_actions st0 sd fc "automatic" month t0).2
        sd fc "automatic" month t1).1.current_action =
      (analyze_and_display_actions st0 sd fc "automatic" month t0).1.analysis ∧
    (analyze_and_display_actions
        (analyze_and_display_actions st0 sd fc "automatic" month t0).2
        sd fc "automatic" month t1).1.analysis = none ∧
    (analyze_and_display_actions
        (analyze_and_display_actions st0 sd fc "automatic" month t0).2
        sd fc "automatic" month t1).2 =
      (analyze_and_display_actions st0 sd fc "automatic" month t0).2 ∧
    (analyze_and_display_actions
        (analyze_and_display_actions st0 sd fc "automatic" month t0).2
        sd fc "automatic" month t1).1.ai_active = true ∧
    (analyze_and_display_actions
        (analyze_and_display_actions st0 sd fc "automatic" month t0).2
        sd fc "automatic" month t1).1.message =
      "AI analyzing... Next check in " ++ toString (30 - (t1 - t0)) ++ " seconds" := by
  have hmod : (t1 - t0) % 86400 = t1 - t0 := Nat.mod_eq_of_lt (by omega)
  simp [analyze_and_display_actions, freshAnalyze, h0, hmod, hlt, analysisIntervalSec]

theorem throttled_call_returns_cache_witness :
    initAIState.last_analysis_time = none ∧ (0:ℕ) ≤ 10 ∧ 10 - 0 < 30 ∧
    ((analyze_and_display_actions
        (analyze_and_display_actions initAIState [] [] "automatic" 6 0).2
        [] [] "automatic" 6 10).1.current_action =
      (analyze_and_display_actions initAIState [] [] "automatic" 6 0).1.analysis ∧
     (analyze_and_display_actions
        (analyze_and_display_actions initAIState [] [] "automatic" 6 0).2
        [] [] "automatic" 6 10).2 =
      (analyze_and_display_actions initAIState [] [] "automatic" 6 0).2) := by
  have h := throttled_call_returns_cache [] [] 6 0 10 initAIState rfl (by decide) (by decide)
  exact ⟨rfl, by decide, by decide, h.1, h.2.2.1⟩

theorem lower_pause : lowerString "pause" = "pause" := rfl

theorem lower_start : lowerString "start" = "start" := rfl

theorem lower_stop : lowerString "stop" = "stop" := rfl

/-- Counterexample to claim C6: pausing while stopped does not fail with a
validation error; the endpoint answers success and the status is unchanged,
a silent no-op. -/
theorem pause_from_stopped_cex :
    (irrigation_immediate initIrrigationStatus "pause" (JVal.num 10) "manual" 0 5).1.success
      = true ∧
    (irrigation_immediate initIrrigationStatus "pause" (JVal.num 10) "manual" 0 5).2 =
      initIrrigationStatus := by decide

/-- Claim C6 as amended: pause never fails; from any state it answers
success and forces running to false with start_time and duration cleared,
so from a stopped state it is a silent no-op. -/
theorem pause_always_succeeds (st : IrrigationStatus) (d : JVal) (mode : String)
    (rc : ℚ) (now : ℕ) (h1 : st.running = false) (h2 : st.start_time = none)
    (h3 : st.duration = JVal.num 0) :
    (irrigation_immediate st "pause" d mode rc now).1.success = true ∧
    (irrigation_immediate st "pause" d mode rc now).2 = st ∧
    ∀ s : IrrigationStatus, (irrigation_immediate s "pause" d mode rc now).2 =
      { s with running := false, start_time := none, duration := JVal.num 0 } := by
  refine ⟨rfl, ?_, ?_⟩
  · cases st with
    | mk r s0 d0 j =>
      simp only [IrrigationStatus.running] at h1
      simp only [IrrigationStatus.start_time] at h2
      simp only [IrrigationStatus.duration] at h3
      subst h1; subst h2; subst h3
      simp [irrigation_immediate, lower_pause]
  · intro s
    simp [irrigation_immediate, lower_pause]

theorem pause_always_succeeds_witness :
    initIrrigationStatus.running = false ∧ initIrrigationStatus.start_time = none ∧
    initIrrigationStatus.duration = JVal.num 0 ∧
    ((irrigation_immediate initIrrigationStatus "pause" (JVal.num 10) "automatic" 20 7).1.success
        = true ∧
     (irrigation_immediate initIrrigationStatus "pause" (JVal.num 10) "automatic" 20 7).2 =
       initIrrigationStatus ∧
     ∀ s : IrrigationStatus,
       (irrigation_immediate s "pause" (JVal.num 10) "automatic" 20 7).2 =
         { s with running := false, start_time := none, duration := JVal.num 0 }) :=
  ⟨rfl, rfl, rfl, pause_always_succeeds initIrrigationStatus (JVal.num 10) "automatic" 20 7
    rfl rfl rfl⟩

/-- Claim C7: start for 15 minutes followed by stop yields the stopped
status with start_time and duration cleared; a further stop is an
idempotent no-op that succeeds again, and stop from any status whatsoever
yields that same stopped shape. -/
theorem start_stop_idempotent (st0 : IrrigationStatus) (mode : String) (rc : ℚ)
    (t1 t2 t3 : ℕ) (d2 d3 : JVal) :
    ((irrigation_immediate st0 "start" (JVal.num 15) mode rc t1).2.running = true ∧
     (irrigation_immediate st0 "start" (JVal.num 15) mode rc t1).2.start_time = some t1 ∧
     (irrigation_immediate st0 "start" (JVal.num 15) mode rc t1).2.duration = JVal.num 15) ∧
    ((irrigation_immediate
        (irrigation_immediate st0 "start" (JVal.num 15) mode rc t1).2
        "stop" d2 mode rc t2).2.running = false ∧
     (irrigation_immediate
        (irrigation_immediate st0 "start" (JVal.num 15) mode rc t1).2
        "stop" d2 mode rc t2).2.start_time = none ∧
     (irrigation_immediate
        (irrigation_immediate st0 "start" (JVal.num 15) mode rc t1).2
        "stop" d2 mode rc t2).2.duration = JVal.num 0 ∧
     (irrigation_immediate
        (irrigation_immediate st0 "start" (JVal.num 15) mode rc t1).2
        "stop" d2 mode rc t2).1.success = true) ∧
    ((irrigation_immediate
        (irrigation_immediate
          (irrigation_immediate st0 "start" (JVal.num 15) mode rc t1).2
          "stop" d2 mode rc t2).2
        "stop" d3 mode rc t3).2 =
      (irrigation_immediate
        (irrigation_immediate st0 "start" (JVal.num 15) mode rc t1).2
        "stop" d2 mode rc t2).2 ∧
     (irrigation_immediate
        (irrigation_immediate
          (irrigation_immediate st0 "start" (JVal.num 15) mode rc t1).2
          "stop" d2 mode rc t2).2
        "stop" d3 mode rc t3).1.success = true) ∧
    ∀ s : IrrigationStatus, (irrigation_immediate s "stop" d2 mode rc t2).2 =
      { s with running := false, start_time := none, duration := JVal.num 0 } := by
  simp [irrigation_immediate, lower_start, lower_stop]

/-- Claim C10: any action other than start, pause, stop and resume (the
empty string included) leaves every field of the irrigation status
unchanged while still answering success with the generic processed
message. -/
theorem unknown_action_noop (st : IrrigationStatus) (rawAction : String) (d : JVal)
    (mode : String) (rc : ℚ) (now : ℕ)
    (h : lowerString rawAction ∉ (["start", "pause", "stop", "resume"] : List String)) :
    (irrigation_immediate st rawAction d mode rc now).2 = st ∧
    (irrigation_immediate st rawAction d mode rc now).1.success = true ∧
    (irrigation_immediate st rawAction d mode rc now).1.message =
      "Irrigation " ++ lowerString rawAction ++ " processed" := by
  simp only [List.mem_cons, List.mem_singleton, not_or] at h
  obtain ⟨h1, h2, h3, h4⟩ := h
  simp [irrigation_immediate, irrigationMessage, h1, h2, h3, h4]

theorem unknown_action_noop_witness :
    lowerString "" ∉ (["start", "pause", "stop", "resume"] : List String) ∧
    ((irrigation_immediate initIrrigationStatus "" (JVal.num 10) "automatic" 20 7).2 =
       initIrrigationStatus ∧
     (irrigation_immediate initIrrigationStatus "" (JVal.num 10) "automatic" 20 7).1.success
       = true ∧
     (irrigation_immediate initIrrigationStatus "" (JVal.num 10) "automatic" 20 7).1.message =
       "Irrigation " ++ lowerString "" ++ " processed") :=
  ⟨by decide, unknown_action_noop initIrrigationStatus "" (JVal.num 10) "automatic" 20 7
    (by decide)⟩

theorem keysOf_eq_map (m : SMap) : keysOf m = m.map Prod.fst := by
  induction m with
  | nil => rfl
  | cons p rest ih => cases p; simp [keysOf, ih]

theorem hasKey_iff_mem (m : SMap) (k : String) : hasKey m k = true ↔ k ∈ keysOf m := by
  induction m with
  | nil => simp [hasKey, keysOf]
  | cons p rest ih =>
    cases p with
    | mk k' v =>
      simp only [hasKey, keysOf, Bool.or_eq_true, decide_eq_true_eq, List.mem_cons, ih]
      constructor
      · rintro (h | h)
        · exact Or.inl h.symm
        · exact Or.inr h
      · rintro (h | h)
        · exact Or.inl h.symm
        · exact Or.inr h

theorem mem_keys_of_mem (k : String) (v : JVal) (p : SMap) (hm : (k, v) ∈ p) :
    k ∈ keysOf p := by
  rw [keysOf_eq_map]
  exact List.mem_map_of_mem Prod.fst hm

theorem lookup_none_of_not_has (m : SMap) (k : String) (h : hasKey m k = false) :
    lookupKey m k = none := by
  induction m with
  | nil => rfl
  | cons p rest ih =>
    cases p with
    | mk k' v =>
      simp [hasKey] at h
      simp [lookupKey, h.1, ih h.2]

theorem lookup_setKey_self (m : SMap) (k : String) (v : JVal) :
    lookupKey (setKey m k v) k = some v := by
  induction m with
  | nil => simp [setKey, lookupKey]
  | cons p rest ih =>
    cases p with
    | mk k' v' =>
      by_cases hk : k' = k
      · simp [setKey, hk, lookupKey]
      · simp [setKey, hk, lookupKey, ih]

theorem lookup_setKey_other (m : SMap) (k k' : String) (v : JVal) (h : k' ≠ k) :
    lookupKey (setKey m k v) k' = lookupKey m k' := by
  induction m with
  | nil => simp [setKey, lookupKey, Ne.symm h]
  | cons p rest ih =>
    cases p with
    | mk k0 v0 =>
      by_cases hk : k0 = k
      · subst hk
        simp [setKey, lookupKey, Ne.symm h]
      · simp [setKey, hk, lookupKey, ih]

theorem hasKey_setKey_self (m : SMap) (k : String) (v : JVal) :
    hasKey (setKey m k v) k = true := by
  induction m with
  | nil => simp [setKey, hasKey]
  | cons p rest ih =>
    cases p with
    | mk k' v' =>
      by_cases hk : k' = k
      · simp [setKey, hk, hasKey]
      · simp [setKey, hk, hasKey, ih]

theorem hasKey_setKey_other (m : SMap) (k k' : String) (v : JVal) (h : k' ≠ k) :
    hasKey (setKey m k v) k' = hasKey m k' := by
  induction m with
  | nil => simp [setKey, hasKey, Ne.symm h]
  | cons p rest ih =>
    cases p with
    | mk k0 v0 =>
      by_cases hk : k0 = k
      · subst hk
        simp [setKey, hasKey, Ne.symm h]
      · simp [setKey, hk, hasKey, ih]

theorem keys_setKey_of_has (m : SMap) (k : String) (v : JVal) (h : hasKey m k = true) :
    keysOf (setKey m k v) = keysOf m := by
  induction m with
  | nil => simp [hasKey] at h
  | cons p rest ih =>
    cases p with
    | mk k' v' =>
      by_cases hk : k' = k
      · subst hk
        simp [setKey, keysOf]
      · simp [hasKey, hk] at h
        simp [setKey, hk, keysOf, ih h]

theorem keys_merge (p : SMap) : ∀ cur : SMap,
    keysOf (mergeRecognized cur p) = keysOf cur := by
  induction p with
  | nil => intro cur; rfl
  | cons e rest ih =>
    intro cur
    cases e with
    | mk k v =>
      simp only [mergeRecognized]
      rw [ih]
      by_cases hk : hasKey cur k
      · simp [hk, keys_setKey_of_has cur k v hk]
      · simp [hk]

theorem lookup_merge_not_mem (k : String) : ∀ (p cur : SMap), k ∉ keysOf p →
    lookupKey (mergeRecognized cur p) k = lookupKey cur k := by
  intro p
  induction p with
  | nil => intro cur _; rfl
  | cons e rest ih =>
    intro cur hnm
    cases e with
    | mk k0 v0 =>
      simp only [keysOf, List.mem_cons, not_or] at hnm
      simp only [mergeRecognized]
      rw [ih _ hnm.2]
      by_cases hk : hasKey cur k0
      · simp [hk, lookup_setKey_other cur k0 k v0 hnm.1]
      · simp [hk]

theorem lookup_merge_stored (k : String) (v : JVal) : ∀ (p cur : SMap),
    (keysOf p).Nodup → (k, v) ∈ p → hasKey cur k = true →
    lookupKey (mergeRecognized cur p) k = some v := by
  intro p
  induction p with
  | nil => intro cur _ hmem _; simp at hmem
  | cons e rest ih =>
    intro cur hnd hmem hhas
    cases e with
    | mk k0 v0 =>
      simp only [keysOf, List.nodup_cons] at hnd
      rcases List.mem_cons.mp hmem with heq | hmem'
      · injection heq with hk hv
        subst hk; subst hv
        simp only [mergeRecognized, hhas, if_true]
        rw [lookup_merge_not_mem k rest (setKey cur k v) hnd.1]
        exact lookup_setKey_self cur k v
      · have hk0 : k ≠ k0 := by
          intro hcontra
          subst hcontra
          exact hnd.1 (mem_keys_of_mem k v rest hmem')
        have hhas' : hasKey (if hasKey cur k0 then setKey cur k0 v0 else cur) k = true := by
          by_cases h0 : hasKey cur k0
          · simp [h0, hasKey_setKey_other cur k0 k v0 hk0, hhas]
          · simp [h0, hhas]
        simp only [mergeRecognized]
        exact ih _ hnd.2 hmem' hhas'

/-- Claim C8: a non-empty sensor update merges only keys already in the
sensor schema (unrecognized keys are never stored), stamps last_updated
with the current time and sets connection_status to connected, and stores
every recognized value verbatim with no further validation. -/
theorem post_sensors_whitelist (cur payload : SMap) (now : ℕ)
    (hk : keysOf cur = schemaKeys) (hnd : (keysOf payload).Nodup) (hne : payload ≠ []) :
    keysOf (post_sensors cur payload now) = schemaKeys ∧
    lookupKey (post_sensors cur payload now) "last_updated" = some (JVal.num now) ∧
    lookupKey (post_sensors cur payload now) "connection_status" =
      some (JVal.str "connected") ∧
    (∀ k v, (k, v) ∈ payload → k ∉ schemaKeys →
      lookupKey (post_sensors cur payload now) k = none) ∧
    (∀ k v, (k, v) ∈ payload → k ∈ schemaKeys → k ≠ "last_updated" →
      k ≠ "connection_status" → lookupKey (post_sensors cur payload now) k = some v) := by
  have hye : payload.isEmpty = false := by
    cases payload with
    | nil => exact absurd rfl hne
    | cons a l => rfl
  have hm : keysOf (mergeRecognized cur payload) = schemaKeys := by
    rw [keys_merge payload cur, hk]
  have hhl : hasKey (mergeRecognized cur payload) "last_updated" = true := by
    rw [hasKey_iff_mem, hm]; decide
  have hkl : keysOf (setKey (mergeRecognized cur payload) "last_updated" (JVal.num now)) =
      schemaKeys := by
    rw [keys_setKey_of_has _ _ _ hhl, hm]
  have hhc : hasKey (setKey (mergeRecognized cur payload) "last_updated" (JVal.num now))
      "connection_status" = true := by
    rw [hasKey_iff_mem, hkl]; decide
  have hpost : post_sensors cur payload now =
      setKey (setKey (mergeRecognized cur payload) "last_updated" (JVal.num now))
        "connection_status" (JVal.str "connected") := by
    simp [post_sensors, hye]
  refine ⟨?_, ?_, ?_, ?_, ?_⟩
  · rw [hpost, keys_setKey_of_has _ _ _ hhc, hkl]
  · rw [hpost, lookup_setKey_other _ _ _ _ (by decide), lookup_setKey_self]
  · rw [hpost, lookup_setKey_self]
  · intro k v hmem hnotin
    have hne1 : k ≠ "connection_status" := fun hc => hnotin (by rw [hc]; decide)
    have hne2 : k ≠ "last_updated" := fun hc => hnotin (by rw [hc]; decide)
    have hcur : hasKey cur k = false := by
      cases hcase : hasKey cur k with
      | false => rfl
      | true => exact absurd (hk ▸ (hasKey_iff_mem cur k).mp hcase) hnotin
    have hmrg : hasKey (mergeRecognized cur payload) k = false := by
      cases hcase : hasKey (mergeRecognized cur payload) k with
      | false => rfl
      | true => exact absurd (hm ▸ (hasKey_iff_mem _ k).mp hcase) hnotin
    rw [hpost, lookup_setKey_other _ _ _ _ hne1, lookup_setKey_other _ _ _ _ hne2]
    exact lookup_none_of_not_has _ _ hmrg
  · intro k v hmem hin hne2 hne1
    have hcur : hasKey cur k = true := (hasKey_iff_mem cur k).mpr (hk ▸ hin)
    rw [hpost, lookup_setKey_other _ _ _ _ hne1, lookup_setKey_other _ _ _ _ hne2]
    exact lookup_merge_stored k v payload cur hnd hmem hcur

theorem post_sensors_whitelist_witness :
    keysOf sensorData0 = schemaKeys ∧
    (keysOf ([("temperature", JVal.num 30), ("bogus", JVal.str "x")] : SMap)).Nodup ∧
    ([("temperature", JVal.num 30), ("bogus", JVal.str "x")] : SMap) ≠ [] ∧
    (keysOf (post_sensors sensorData0
        [("temperature", JVal.num 30), ("bogus", JVal.str "x")] 5) = schemaKeys ∧
     lookupKey (post_sensors sensorData0
        [("temperature", JVal.num 30), ("bogus", JVal.str "x")] 5) "last_updated" =
       some (JVal.num 5) ∧
     lookupKey (post_sensors sensorData0
        [("temperature", JVal.num 30), ("bogus", JVal.str "x")] 5) "connection_status" =
       some (JVal.str "connected")) := by
  have h := post_sensors_whitelist sensorData0
    [("temperature", JVal.num 30), ("bogus", JVal.str "x")] 5 (by decide) (by decide)
    (by decide)
  exact ⟨by decide, by decide, by decide, h.1, h.2.1, h.2.2.1⟩

end AgroSmart
